import Mathlib

/-!
Verification of the MAX31856 thermocouple driver specification.

The repository ships only the two example sketches; the driver body
(`MAX31856.cpp` / `MAX31856.h`) is not present, so the driver operations
below are modelled from the specification document (each such definition
says so in its doc comment).  Temperatures are modelled as exact rational
numbers; 8-bit registers are natural numbers reduced modulo 256.
-/

/-- Temperature unit selector, the enumerated {Celsius, Fahrenheit} of the
spec (`CELSIUS` / `FAHRENHEIT` in the examples). -/
inductive TempUnit
  | celsius
  | fahrenheit
deriving DecidableEq, Repr

/-- Modelled from the spec: the device-side state of one MAX31856 IC that the
missing driver body talks to over the bit-banged bus.  `present` records
whether a device answers the bus at all (an absent device reads back as the
all-ones pull-up pattern); `cr0`, `cr1`, `mask` are the writable control
registers; `cjh`/`cjl` the 2-byte cold-junction register pair; `tc2`/`tc1`/`tc0`
the 3-byte thermocouple register group; `sr` the read-only fault-status
register. -/
structure Device where
  present : Bool
  cr0 : Nat
  cr1 : Nat
  mask : Nat
  cjh : Nat
  cjl : Nat
  tc2 : Nat
  tc1 : Nat
  tc0 : Nat
  sr : Nat
deriving DecidableEq, Repr

/-- Modelled from the spec: the driver's device handle (class `MAX31856` of the
missing header), holding the four pin assignments and the stored desired
configuration (primary control, secondary control, fault mask) that the
power-loss recovery re-asserts. -/
structure MAX31856 where
  sdiPin : Nat
  sdoPin : Nat
  csPin : Nat
  sckPin : Nat
  cr0 : Nat
  cr1 : Nat
  mask : Nat
deriving DecidableEq, Repr

/-- Modelled from the spec: `construct(dataOutPin, dataInPin, chipSelectPin,
clockPin) -> handle` — the examples build the handle from pin numbers alone
(`new MAX31856(SDI, SDO, CS, SCK)`); the stored desired configuration starts
at the all-zero power-on value until the caller writes it. -/
def construct (sdi sdo cs sck : Nat) : MAX31856 :=
  ⟨sdi, sdo, cs, sck, 0, 0, 0⟩

/-- Address of the primary control register (spec register class 0x00–0x0F). -/
def REGISTER_CR0 : Nat := 0
/-- Address of the secondary control register. -/
def REGISTER_CR1 : Nat := 1
/-- Address of the fault-mask register. -/
def REGISTER_MASK : Nat := 2

/-- Modelled from the spec: open-circuit fault bit of the fault-status byte. -/
def SR_FAULT_OPEN : Nat := 1
/-- Modelled from the spec: over/under-voltage fault bit of the fault-status
byte. -/
def SR_FAULT_VOLTAGE : Nat := 2

/-- Modelled from the spec: sentinel for an open/disconnected thermocouple,
a reserved numeric value outside any achievable temperature. -/
def FAULT_OPEN : ℚ := 10000
/-- Modelled from the spec: sentinel for an input-voltage fault. -/
def FAULT_VOLTAGE : ℚ := 10001
/-- Modelled from the spec: sentinel for device-not-present. -/
def NO_MAX31856 : ℚ := 10002

/-- Modelled from the spec: reading one 8-bit register back over the bus.  A
present device returns the register value (a byte); with no device answering,
the data-in line is pulled up and every readback is `0xFF`. -/
def readback (d : Device) (v : Nat) : Nat :=
  if d.present then v % 256 else 255

/-- Modelled from the spec: `writeRegister(address, value)` of the missing
driver body.  Writing one of the three configuration registers updates both
the stored desired configuration in the handle and (when a device is present)
the device's register; the payload is one byte. -/
def writeRegister (h : MAX31856) (d : Device) (addr value : Nat) :
    MAX31856 × Device :=
  let v := value % 256
  let h' :=
    if addr = REGISTER_CR0 then { h with cr0 := v }
    else if addr = REGISTER_CR1 then { h with cr1 := v }
    else if addr = REGISTER_MASK then { h with mask := v }
    else h
  let d' :=
    if d.present then
      if addr = REGISTER_CR0 then { d with cr0 := v }
      else if addr = REGISTER_CR1 then { d with cr1 := v }
      else if addr = REGISTER_MASK then { d with mask := v }
      else d
    else d
  (h', d')

/-- Modelled from the spec: the configuration-manager step run before every
temperature read.  Read back the three control registers; the all-ones
pattern means no device answered the bus (`none`); a readback equal to the
stored desired configuration proceeds unchanged; any other readback
(including the all-zero power-on-reset pattern) makes the driver rewrite all
three desired registers before any decode. -/
def verifyAndRecover (h : MAX31856) (d : Device) : Option Device :=
  let r0 := readback d d.cr0
  let r1 := readback d d.cr1
  let rm := readback d d.mask
  if r0 = 255 ∧ r1 = 255 ∧ rm = 255 then
    none
  else if r0 = h.cr0 % 256 ∧ r1 = h.cr1 % 256 ∧ rm = h.mask % 256 then
    some d
  else
    some { d with cr0 := h.cr0 % 256, cr1 := h.cr1 % 256, mask := h.mask % 256 }

/-- Sign extension of a `w`-bit register pattern to a signed integer (the high
bit of the high byte is the sign bit). -/
def signExtend (w : Nat) (v : Nat) : Int :=
  if v % 2 ^ w < 2 ^ (w - 1) then (v % 2 ^ w : Int)
  else (v % 2 ^ w : Int) - 2 ^ w

/-- Celsius-to-requested-unit conversion: `F = C * 9/5 + 32`. -/
def toUnit (u : TempUnit) (c : ℚ) : ℚ :=
  match u with
  | .celsius => c
  | .fahrenheit => c * 9 / 5 + 32

/-- Modelled from the spec: decode of the 2-byte cold-junction register pair —
combine the bytes, sign-extend from the high byte, scale by 1/256 degree
Celsius per least-significant bit, convert unit if requested. -/
def decodeJunction (hi lo : Nat) (u : TempUnit) : ℚ :=
  toUnit u ((signExtend 16 ((hi % 256) * 256 + lo % 256) : ℚ) / 256)

/-- Modelled from the spec: decode of the 3-byte thermocouple register group —
combine the bytes, sign-extend, scale by 1/4096 degree Celsius per
least-significant bit, convert unit if requested. -/
def decodeThermo (b2 b1 b0 : Nat) (u : TempUnit) : ℚ :=
  toUnit u
    ((signExtend 24 ((b2 % 256) * 65536 + (b1 % 256) * 256 + b0 % 256) : ℚ) /
      4096)

/-- Modelled from the spec: `readJunction(unit)` of the missing driver body.
Verify/recover the configuration first (all-ones readback means no device:
return `NO_MAX31856` without touching fault or temperature bytes), then
inspect the fault-status register (voltage fault before open-circuit fault),
then decode the cold-junction pair. -/
def readJunction (h : MAX31856) (d : Device) (u : TempUnit) : ℚ × Device :=
  match verifyAndRecover h d with
  | none => (NO_MAX31856, d)
  | some d' =>
    let sr := readback d' d'.sr
    if sr &&& SR_FAULT_VOLTAGE ≠ 0 then (FAULT_VOLTAGE, d')
    else if sr &&& SR_FAULT_OPEN ≠ 0 then (FAULT_OPEN, d')
    else (decodeJunction d'.cjh d'.cjl u, d')

/-- Modelled from the spec: `readThermocouple(unit)` of the missing driver
body.  Same precedence as `readJunction`: device-not-present, then voltage
fault, then open-circuit fault, then the decoded 3-byte value. -/
def readThermocouple (h : MAX31856) (d : Device) (u : TempUnit) : ℚ × Device :=
  match verifyAndRecover h d with
  | none => (NO_MAX31856, d)
  | some d' =>
    let sr := readback d' d'.sr
    if sr &&& SR_FAULT_VOLTAGE ≠ 0 then (FAULT_VOLTAGE, d')
    else if sr &&& SR_FAULT_OPEN ≠ 0 then (FAULT_OPEN, d')
    else (decodeThermo d'.tc2 d'.tc1 d'.tc0 u, d')

/-- Floor of a rational as an integer (`num / den` with Euclidean division,
which rounds down for the positive denominator). -/
def ratFloor (q : ℚ) : Int := q.num / (q.den : Int)

/-- Truncation of a rational toward zero, the behavior of the C cast
`(int) temperature` in the example sketches. -/
def ratTrunc (q : ℚ) : Int :=
  if 0 ≤ q then ratFloor q else -ratFloor (-q)

/-- Modelled from the spec: re-encode a cold-junction temperature into the
2-byte register pattern (the unscale direction of the fixed-point transform:
multiply by 256, take the integer part, split into bytes two's-complement). -/
def encodeJunction (t : ℚ) : Nat × Nat :=
  let n : Int := ratFloor (t * 256)
  let v : Nat := (n % 65536).toNat
  (v / 256, v % 256)

/-- Bounds on the sign-extended 16-bit cold-junction pattern. -/
theorem signExtend16_bound (v : Nat) :
    -32768 ≤ signExtend 16 v ∧ signExtend 16 v < 32768 := by
  unfold signExtend
  norm_num
  split <;> omega

/-- Bounds on the sign-extended 24-bit thermocouple pattern. -/
theorem signExtend24_bound (v : Nat) :
    -8388608 ≤ signExtend 24 v ∧ signExtend 24 v < 8388608 := by
  unfold signExtend
  norm_num
  split <;> omega

/-- Every decoded cold-junction temperature lies strictly between -300 and
300 in either unit (the 16-bit encoding spans ±128 °C). -/
theorem decodeJunction_bound (hi lo : Nat) (u : TempUnit) :
    -300 < decodeJunction hi lo u ∧ decodeJunction hi lo u < 300 := by
  obtain ⟨h1, h2⟩ := signExtend16_bound ((hi % 256) * 256 + lo % 256)
  have hq1 : (-32768 : ℚ) ≤ ((signExtend 16 ((hi % 256) * 256 + lo % 256) : Int) : ℚ) := by
    exact_mod_cast h1
  have hq2 : ((signExtend 16 ((hi % 256) * 256 + lo % 256) : Int) : ℚ) < 32768 := by
    exact_mod_cast h2
  cases u <;> unfold decodeJunction toUnit <;> constructor <;> linarith

/-- Every decoded thermocouple temperature lies strictly between -4000 and
4000 in either unit (the 24-bit encoding spans ±2048 °C). -/
theorem decodeThermo_bound (b2 b1 b0 : Nat) (u : TempUnit) :
    -4000 < decodeThermo b2 b1 b0 u ∧ decodeThermo b2 b1 b0 u < 4000 := by
  obtain ⟨h1, h2⟩ :=
    signExtend24_bound ((b2 % 256) * 65536 + (b1 % 256) * 256 + b0 % 256)
  have hq1 : (-8388608 : ℚ) ≤
      ((signExtend 24 ((b2 % 256) * 65536 + (b1 % 256) * 256 + b0 % 256) : Int) : ℚ) := by
    exact_mod_cast h1
  have hq2 : ((signExtend 24 ((b2 % 256) * 65536 + (b1 % 256) * 256 + b0 % 256) : Int) : ℚ) <
      8388608 := by
    exact_mod_cast h2
  cases u <;> unfold decodeThermo toUnit <;> constructor <;> linarith

/-- The map ratFloor agrees with the integer-part map on integers. -/
theorem ratFloor_intCast (n : Int) : ratFloor ((n : Int) : ℚ) = n := by
  simp [ratFloor]

/-- C3: readJunction decodes the 2-byte cold-junction pair by combining the
bytes into a signed integer sign-extended from the high byte, scaled by 1/256
degree Celsius per least-significant bit of the low byte; raw bytes
0x19 0x00 decode to exactly +25.00 °C. -/
theorem readJunction_decode_spec (hi lo : Nat) :
    decodeJunction hi lo TempUnit.celsius * 256 =
      ((signExtend 16 ((hi % 256) * 256 + lo % 256) : Int) : ℚ) ∧
    decodeJunction 25 0 TempUnit.celsius = 25 := by
  constructor
  · unfold decodeJunction toUnit
    rw [div_mul_cancel₀]
    norm_num
  · norm_num [decodeJunction, toUnit, signExtend]

/-- C4: readThermocouple decodes the 3-byte thermocouple group as a signed
fixed-point value, sign-extended, at 1/4096 degree Celsius per
least-significant bit; the encoding of 10000 counts (bytes 0x00 0x27 0x10)
decodes to 10000/4096 ≈ +2.441 °C. -/
theorem readThermocouple_decode_spec (b2 b1 b0 : Nat) :
    decodeThermo b2 b1 b0 TempUnit.celsius * 4096 =
      ((signExtend 24 ((b2 % 256) * 65536 + (b1 % 256) * 256 + b0 % 256) : Int) : ℚ) ∧
    decodeThermo 0 39 16 TempUnit.celsius = 10000 / 4096 ∧
    |decodeThermo 0 39 16 TempUnit.celsius - 2441 / 1000| < 1 / 1000 := by
  refine ⟨?_, ?_, ?_⟩
  · unfold decodeThermo toUnit
    rw [div_mul_cancel₀]
    norm_num
  · norm_num [decodeThermo, toUnit, signExtend]
  · rw [abs_sub_lt_iff]
    constructor <;> norm_num [decodeThermo, toUnit, signExtend]

/-- C5: for every raw register input, the Fahrenheit decode equals the
Celsius decode transformed by F = C * 9/5 + 32, exactly, in both the
cold-junction and the thermocouple decoder. -/
theorem decode_unit_conversion (hi lo b2 b1 b0 : Nat) :
    decodeJunction hi lo TempUnit.fahrenheit =
      decodeJunction hi lo TempUnit.celsius * 9 / 5 + 32 ∧
    decodeThermo b2 b1 b0 TempUnit.fahrenheit =
      decodeThermo b2 b1 b0 TempUnit.celsius * 9 / 5 + 32 := by
  exact ⟨rfl, rfl⟩

/-- C8: decoding a 2-byte cold-junction pattern to Celsius and re-encoding
the temperature returns the original bit pattern, for every 16-bit pattern. -/
theorem junction_roundtrip (hi lo : Nat) (hhi : hi < 256) (hlo : lo < 256) :
    encodeJunction (decodeJunction hi lo TempUnit.celsius) = (hi, lo) := by
  have hmhi : hi % 256 = hi := Nat.mod_eq_of_lt hhi
  have hmlo : lo % 256 = lo := Nat.mod_eq_of_lt hlo
  unfold encodeJunction decodeJunction toUnit
  rw [hmhi, hmlo, div_mul_cancel₀ _ (by norm_num : (256 : ℚ) ≠ 0), ratFloor_intCast]
  have hv : ((signExtend 16 (hi * 256 + lo)) % 65536).toNat = hi * 256 + lo := by
    unfold signExtend
    norm_num
    split <;> omega
  simp only [Prod.mk.injEq]
  omega

/-- Witness for C8 at the raw pair 0x19 0x00. -/
theorem junction_roundtrip_witness :
    encodeJunction (decodeJunction 25 0 TempUnit.celsius) = (25, 0) :=
  junction_roundtrip 25 0 (by decide) (by decide)

/-- When a present device does not read back as the all-ones absent pattern,
the verification step keeps the device when the readback matches the stored
desired configuration and rewrites the three control registers otherwise. -/
theorem verifyAndRecover_present (h : MAX31856) (d : Device)
    (hp : d.present = true)
    (hFF : ¬(d.cr0 % 256 = 255 ∧ d.cr1 % 256 = 255 ∧ d.mask % 256 = 255)) :
    verifyAndRecover h d =
      some (if d.cr0 % 256 = h.cr0 % 256 ∧ d.cr1 % 256 = h.cr1 % 256 ∧
              d.mask % 256 = h.mask % 256 then d
            else { d with cr0 := h.cr0 % 256, cr1 := h.cr1 % 256,
                          mask := h.mask % 256 }) := by
  unfold verifyAndRecover readback
  simp [hp, hFF]
  split <;> rfl

/-- An absent device reads back the all-ones pattern, so verification
reports device-not-present. -/
theorem verifyAndRecover_absent (h : MAX31856) (d : Device)
    (hp : d.present = false) : verifyAndRecover h d = none := by
  unfold verifyAndRecover readback
  simp [hp]

/-- C6: whenever no device answers the bus, both readJunction and
readThermocouple return the sentinel NO_MAX31856; the result is the same for
every fault-status byte and every temperature byte, so neither is decoded. -/
theorem no_device_sentinel (h : MAX31856) (d : Device) (u : TempUnit)
    (hp : d.present = false) :
    (readJunction h d u).1 = NO_MAX31856 ∧
    (readThermocouple h d u).1 = NO_MAX31856 := by
  unfold readJunction readThermocouple
  rw [verifyAndRecover_absent h d hp]
  exact ⟨rfl, rfl⟩

/-- Witness for C6: an absent device with plausible temperature and fault
bytes still yields NO_MAX31856 from both reads. -/
theorem no_device_sentinel_witness :
    (readJunction (construct 5 6 4 3) (Device.mk false 128 19 252 25 0 0 39 16 0)
        TempUnit.celsius).1 = NO_MAX31856 ∧
    (readThermocouple (construct 5 6 4 3) (Device.mk false 128 19 252 25 0 0 39 16 0)
        TempUnit.celsius).1 = NO_MAX31856 :=
  no_device_sentinel (construct 5 6 4 3)
    (Device.mk false 128 19 252 25 0 0 39 16 0) TempUnit.celsius rfl

/-- Full evaluation of readThermocouple on a present device (readback not the
absent pattern): verified-or-recovered device, then the fault precedence. -/
theorem readThermocouple_present (h : MAX31856) (d : Device) (u : TempUnit)
    (hp : d.present = true)
    (hFF : ¬(d.cr0 % 256 = 255 ∧ d.cr1 % 256 = 255 ∧ d.mask % 256 = 255)) :
    readThermocouple h d u =
      ((if (d.sr % 256) &&& SR_FAULT_VOLTAGE ≠ 0 then FAULT_VOLTAGE
        else if (d.sr % 256) &&& SR_FAULT_OPEN ≠ 0 then FAULT_OPEN
        else decodeThermo d.tc2 d.tc1 d.tc0 u),
       (if d.cr0 % 256 = h.cr0 % 256 ∧ d.cr1 % 256 = h.cr1 % 256 ∧
           d.mask % 256 = h.mask % 256 then d
        else { d with cr0 := h.cr0 % 256, cr1 := h.cr1 % 256,
                      mask := h.mask % 256 })) := by
  unfold readThermocouple
  rw [verifyAndRecover_present h d hp hFF]
  by_cases hC : d.cr0 % 256 = h.cr0 % 256 ∧ d.cr1 % 256 = h.cr1 % 256 ∧
      d.mask % 256 = h.mask % 256
  · rw [if_pos hC]
    simp [readback, hp]
    split <;> first | rfl | (split <;> rfl)
  · rw [if_neg hC]
    simp [readback, hp]
    split <;> first | rfl | (split <;> rfl)

/-- Full evaluation of readJunction on a present device (readback not the
absent pattern): verified-or-recovered device, then the fault precedence. -/
theorem readJunction_present (h : MAX31856) (d : Device) (u : TempUnit)
    (hp : d.present = true)
    (hFF : ¬(d.cr0 % 256 = 255 ∧ d.cr1 % 256 = 255 ∧ d.mask % 256 = 255)) :
    readJunction h d u =
      ((if (d.sr % 256) &&& SR_FAULT_VOLTAGE ≠ 0 then FAULT_VOLTAGE
        else if (d.sr % 256) &&& SR_FAULT_OPEN ≠ 0 then FAULT_OPEN
        else decodeJunction d.cjh d.cjl u),
       (if d.cr0 % 256 = h.cr0 % 256 ∧ d.cr1 % 256 = h.cr1 % 256 ∧
           d.mask % 256 = h.mask % 256 then d
        else { d with cr0 := h.cr0 % 256, cr1 := h.cr1 % 256,
                      mask := h.mask % 256 })) := by
  unfold readJunction
  rw [verifyAndRecover_present h d hp hFF]
  by_cases hC : d.cr0 % 256 = h.cr0 % 256 ∧ d.cr1 % 256 = h.cr1 % 256 ∧
      d.mask % 256 = h.mask % 256
  · rw [if_pos hC]
    simp [readback, hp]
    split <;> first | rfl | (split <;> rfl)
  · rw [if_neg hC]
    simp [readback, hp]
    split <;> first | rfl | (split <;> rfl)

/-- C1: readThermocouple decides multiple simultaneous abnormal conditions by
the fixed precedence device-not-present > voltage fault > open-circuit fault
> valid decoded value: an absent-device readback yields NO_MAX31856; with a
device answering, the voltage-fault bit yields FAULT_VOLTAGE even when the
open-circuit bit is also set; the open-circuit bit with no voltage-fault bit
yields FAULT_OPEN regardless of the raw temperature bytes; with neither bit
set the decoded value is returned. -/
theorem readThermocouple_precedence (h : MAX31856) (d : Device) (u : TempUnit) :
    ((d.present = false ∨
        (d.cr0 % 256 = 255 ∧ d.cr1 % 256 = 255 ∧ d.mask % 256 = 255)) →
      (readThermocouple h d u).1 = NO_MAX31856) ∧
    (d.present = true →
      ¬(d.cr0 % 256 = 255 ∧ d.cr1 % 256 = 255 ∧ d.mask % 256 = 255) →
      (d.sr % 256) &&& SR_FAULT_VOLTAGE ≠ 0 →
      (readThermocouple h d u).1 = FAULT_VOLTAGE) ∧
    (d.present = true →
      ¬(d.cr0 % 256 = 255 ∧ d.cr1 % 256 = 255 ∧ d.mask % 256 = 255) →
      (d.sr % 256) &&& SR_FAULT_VOLTAGE = 0 →
      (d.sr % 256) &&& SR_FAULT_OPEN ≠ 0 →
      (readThermocouple h d u).1 = FAULT_OPEN) ∧
    (d.present = true →
      ¬(d.cr0 % 256 = 255 ∧ d.cr1 % 256 = 255 ∧ d.mask % 256 = 255) →
      (d.sr % 256) &&& SR_FAULT_VOLTAGE = 0 →
      (d.sr % 256) &&& SR_FAULT_OPEN = 0 →
      (readThermocouple h d u).1 = decodeThermo d.tc2 d.tc1 d.tc0 u) := by
  refine ⟨?_, ?_, ?_, ?_⟩
  · rintro (hp | hFF)
    · exact (no_device_sentinel h d u hp).2
    · unfold readThermocouple verifyAndRecover readback
      cases hpr : d.present <;> simp [hpr, hFF]
  all_goals intro hp hFF
  · intro hv
    rw [readThermocouple_present h d u hp hFF]
    simp [hv]
  · intro hv ho
    rw [readThermocouple_present h d u hp hFF]
    simp [hv, ho]
  · intro hv ho
    rw [readThermocouple_present h d u hp hFF]
    simp [hv, ho]

/-- Witness for C1: with both the voltage-fault and the open-circuit bit set
in the fault-status byte (0x03), readThermocouple returns FAULT_VOLTAGE. -/
theorem readThermocouple_precedence_witness :
    (readThermocouple (construct 5 6 4 3) (Device.mk true 0 0 0 25 0 0 39 16 3)
        TempUnit.celsius).1 = FAULT_VOLTAGE :=
  (readThermocouple_precedence (construct 5 6 4 3)
      (Device.mk true 0 0 0 25 0 0 39 16 3) TempUnit.celsius).2.1 rfl
    (by decide) (by decide)

/-- The fault-precedence result is never the device-not-present sentinel when
the decoded value is bounded like a real temperature. -/
theorem faultIf_ne_no (v : ℚ) (s : Nat) (hb : -4000 < v ∧ v < 4000) :
    (if s &&& SR_FAULT_VOLTAGE ≠ 0 then FAULT_VOLTAGE
     else if s &&& SR_FAULT_OPEN ≠ 0 then FAULT_OPEN else v) ≠ NO_MAX31856 := by
  unfold FAULT_OPEN FAULT_VOLTAGE NO_MAX31856
  obtain ⟨hb1, hb2⟩ := hb
  split
  · norm_num
  · split
    · norm_num
    · intro hEq
      rw [hEq] at hb2
      linarith

/-- C2: on a measurement call where the control-register readback (from a
device answering the bus) differs from the three stored desired configuration
values (the all-zero power-on-reset pattern included), the driver rewrites
all three desired registers before any temperature decode: afterwards the
device's control registers equal the stored desired configuration, the
caller observes no device-not-present error from the recovery, and the
returned value is the ordinary fault-or-decode of the measurement bytes, so
whenever a temperature is decoded the device's actual control registers
match the stored desired configuration. -/
theorem config_recovery (h : MAX31856) (d : Device) (u : TempUnit)
    (hp : d.present = true)
    (hFF : ¬(d.cr0 % 256 = 255 ∧ d.cr1 % 256 = 255 ∧ d.mask % 256 = 255))
    (hdiff : ¬(d.cr0 % 256 = h.cr0 % 256 ∧ d.cr1 % 256 = h.cr1 % 256 ∧
               d.mask % 256 = h.mask % 256)) :
    ((readJunction h d u).2.cr0 = h.cr0 % 256 ∧
     (readJunction h d u).2.cr1 = h.cr1 % 256 ∧
     (readJunction h d u).2.mask = h.mask % 256 ∧
     (readJunction h d u).1 ≠ NO_MAX31856 ∧
     (readJunction h d u).1 =
       (if (d.sr % 256) &&& SR_FAULT_VOLTAGE ≠ 0 then FAULT_VOLTAGE
        else if (d.sr % 256) &&& SR_FAULT_OPEN ≠ 0 then FAULT_OPEN
        else decodeJunction d.cjh d.cjl u)) ∧
    ((readThermocouple h d u).2.cr0 = h.cr0 % 256 ∧
     (readThermocouple h d u).2.cr1 = h.cr1 % 256 ∧
     (readThermocouple h d u).2.mask = h.mask % 256 ∧
     (readThermocouple h d u).1 ≠ NO_MAX31856 ∧
     (readThermocouple h d u).1 =
       (if (d.sr % 256) &&& SR_FAULT_VOLTAGE ≠ 0 then FAULT_VOLTAGE
        else if (d.sr % 256) &&& SR_FAULT_OPEN ≠ 0 then FAULT_OPEN
        else decodeThermo d.tc2 d.tc1 d.tc0 u)) := by
  obtain ⟨bj1, bj2⟩ := decodeJunction_bound d.cjh d.cjl u
  obtain ⟨bt1, bt2⟩ := decodeThermo_bound d.tc2 d.tc1 d.tc0 u
  rw [readJunction_present h d u hp hFF, readThermocouple_present h d u hp hFF,
    if_neg hdiff]
  exact ⟨⟨rfl, rfl, rfl, faultIf_ne_no _ _ ⟨by linarith, by linarith⟩, rfl⟩,
         ⟨rfl, rfl, rfl, faultIf_ne_no _ _ ⟨by linarith, by linarith⟩, rfl⟩⟩

/-- Witness for C2: a device that reset to the all-zero pattern is rewritten
to the stored desired configuration and the call reports no error. -/
theorem config_recovery_witness :
    (readJunction (MAX31856.mk 5 6 4 3 128 19 252)
        (Device.mk true 0 0 0 25 0 0 39 16 0) TempUnit.celsius).2.cr0 = 128 % 256 ∧
    (readJunction (MAX31856.mk 5 6 4 3 128 19 252)
        (Device.mk true 0 0 0 25 0 0 39 16 0) TempUnit.celsius).1 ≠ NO_MAX31856 :=
  ⟨(config_recovery (MAX31856.mk 5 6 4 3 128 19 252)
      (Device.mk true 0 0 0 25 0 0 39 16 0) TempUnit.celsius rfl (by decide)
      (by decide)).1.1,
   (config_recovery (MAX31856.mk 5 6 4 3 128 19 252)
      (Device.mk true 0 0 0 25 0 0 39 16 0) TempUnit.celsius rfl (by decide)
      (by decide)).1.2.2.2.1⟩

/-- C7: the three sentinel constants are pairwise distinct and no decoded
temperature, in either unit, is ever equal to any of them, so equality
comparison against the sentinels unambiguously separates the three failure
outcomes from every valid decoded temperature. -/
theorem sentinels_unambiguous (hi lo b2 b1 b0 : Nat) (u : TempUnit) :
    (FAULT_OPEN ≠ FAULT_VOLTAGE ∧ FAULT_OPEN ≠ NO_MAX31856 ∧
     FAULT_VOLTAGE ≠ NO_MAX31856) ∧
    (decodeJunction hi lo u ≠ FAULT_OPEN ∧
     decodeJunction hi lo u ≠ FAULT_VOLTAGE ∧
     decodeJunction hi lo u ≠ NO_MAX31856) ∧
    (decodeThermo b2 b1 b0 u ≠ FAULT_OPEN ∧
     decodeThermo b2 b1 b0 u ≠ FAULT_VOLTAGE ∧
     decodeThermo b2 b1 b0 u ≠ NO_MAX31856) := by
  obtain ⟨hj1, hj2⟩ := decodeJunction_bound hi lo u
  obtain ⟨ht1, ht2⟩ := decodeThermo_bound b2 b1 b0 u
  unfold FAULT_OPEN FAULT_VOLTAGE NO_MAX31856
  refine ⟨⟨by norm_num, by norm_num, by norm_num⟩, ⟨?_, ?_, ?_⟩, ⟨?_, ?_, ?_⟩⟩
  all_goals intro hEq
  · rw [hEq] at hj2; norm_num at hj2
  · rw [hEq] at hj2; norm_num at hj2
  · rw [hEq] at hj2; norm_num at hj2
  · rw [hEq] at ht2; norm_num at ht2
  · rw [hEq] at ht2; norm_num at ht2
  · rw [hEq] at ht2; norm_num at ht2

/-- The map ratFloor is the floor function on the rationals. -/
theorem ratFloor_eq_floor (q : ℚ) : ratFloor q = ⌊q⌋ := by
  rw [Rat.floor_def]
  rfl

/-- Truncation toward zero keeps a bounded temperature bounded. -/
theorem ratTrunc_bound (q : ℚ) (h1 : -4000 < q) (h2 : q < 4000) :
    -4000 ≤ ratTrunc q ∧ ratTrunc q < 4000 := by
  unfold ratTrunc
  split
  · next hq =>
    rw [ratFloor_eq_floor]
    refine ⟨le_trans (by norm_num) (Int.floor_nonneg.mpr hq), ?_⟩
    exact Int.floor_lt.mpr (by exact_mod_cast h2)
  · next hq =>
    push_neg at hq
    rw [ratFloor_eq_floor]
    have hlt : ⌊-q⌋ < 4000 := Int.floor_lt.mpr (by push_cast; linarith)
    have hge : 0 ≤ ⌊-q⌋ := Int.floor_nonneg.mpr (by linarith)
    omega

/-- Truncation agrees with the identity on integers. -/
theorem ratTrunc_intCast (n : Int) : ratTrunc ((n : Int) : ℚ) = n := by
  unfold ratTrunc
  split
  · rw [ratFloor_eq_floor, Int.floor_intCast]
  · rw [← Int.cast_neg, ratFloor_eq_floor, Int.floor_intCast]
    omega

/-- Case analysis of readJunction's returned value: one of the three
sentinels, or the decode of the device's cold-junction bytes. -/
theorem readJunction_val_cases (h : MAX31856) (d : Device) (u : TempUnit) :
    (readJunction h d u).1 = NO_MAX31856 ∨ (readJunction h d u).1 = FAULT_VOLTAGE ∨
    (readJunction h d u).1 = FAULT_OPEN ∨
    (readJunction h d u).1 = decodeJunction d.cjh d.cjl u := by
  cases hpr : d.present
  · exact Or.inl (no_device_sentinel h d u hpr).1
  · by_cases hFF : d.cr0 % 256 = 255 ∧ d.cr1 % 256 = 255 ∧ d.mask % 256 = 255
    · left
      unfold readJunction verifyAndRecover readback
      simp [hpr, hFF]
    · rw [readJunction_present h d u hpr hFF]
      by_cases hv : (d.sr % 256) &&& SR_FAULT_VOLTAGE = 0
      · by_cases ho : (d.sr % 256) &&& SR_FAULT_OPEN = 0
        · right; right; right; simp [hv, ho]
        · right; right; left; simp [hv, ho]
      · right; left; simp [hv]

/-- Case analysis of readThermocouple's returned value: one of the three
sentinels, or the decode of the device's thermocouple bytes. -/
theorem readThermocouple_val_cases (h : MAX31856) (d : Device) (u : TempUnit) :
    (readThermocouple h d u).1 = NO_MAX31856 ∨
    (readThermocouple h d u).1 = FAULT_VOLTAGE ∨
    (readThermocouple h d u).1 = FAULT_OPEN ∨
    (readThermocouple h d u).1 = decodeThermo d.tc2 d.tc1 d.tc0 u := by
  cases hpr : d.present
  · exact Or.inl (no_device_sentinel h d u hpr).2
  · by_cases hFF : d.cr0 % 256 = 255 ∧ d.cr1 % 256 = 255 ∧ d.mask % 256 = 255
    · left
      unfold readThermocouple verifyAndRecover readback
      simp [hpr, hFF]
    · rw [readThermocouple_present h d u hpr hFF]
      by_cases hv : (d.sr % 256) &&& SR_FAULT_VOLTAGE = 0
      · by_cases ho : (d.sr % 256) &&& SR_FAULT_OPEN = 0
        · right; right; right; simp [hv, ho]
        · right; right; left; simp [hv, ho]
      · right; left; simp [hv]

/-- C10: every sentinel is an exact integral value equal to its constant, and
every value returned by readJunction or readThermocouple is either one of
the sentinels or truncates (toward zero, as the examples' `(int)` cast) to
an integer different from each of the three sentinel values, so the
examples' switch never misclassifies. -/
theorem trunc_distinguishes (h : MAX31856) (d : Device) (u : TempUnit) :
    (ratTrunc FAULT_OPEN = 10000 ∧ FAULT_OPEN = ((10000 : Int) : ℚ) ∧
     ratTrunc FAULT_VOLTAGE = 10001 ∧ FAULT_VOLTAGE = ((10001 : Int) : ℚ) ∧
     ratTrunc NO_MAX31856 = 10002 ∧ NO_MAX31856 = ((10002 : Int) : ℚ)) ∧
    ((readJunction h d u).1 = NO_MAX31856 ∨ (readJunction h d u).1 = FAULT_VOLTAGE ∨
     (readJunction h d u).1 = FAULT_OPEN ∨
     (ratTrunc (readJunction h d u).1 ≠ 10000 ∧
      ratTrunc (readJunction h d u).1 ≠ 10001 ∧
      ratTrunc (readJunction h d u).1 ≠ 10002)) ∧
    ((readThermocouple h d u).1 = NO_MAX31856 ∨
     (readThermocouple h d u).1 = FAULT_VOLTAGE ∨
     (readThermocouple h d u).1 = FAULT_OPEN ∨
     (ratTrunc (readThermocouple h d u).1 ≠ 10000 ∧
      ratTrunc (readThermocouple h d u).1 ≠ 10001 ∧
      ratTrunc (readThermocouple h d u).1 ≠ 10002)) := by
  refine ⟨?_, ?_, ?_⟩
  · have e1 : FAULT_OPEN = ((10000 : Int) : ℚ) := by norm_num [FAULT_OPEN]
    have e2 : FAULT_VOLTAGE = ((10001 : Int) : ℚ) := by norm_num [FAULT_VOLTAGE]
    have e3 : NO_MAX31856 = ((10002 : Int) : ℚ) := by norm_num [NO_MAX31856]
    exact ⟨by rw [e1, ratTrunc_intCast], e1, by rw [e2, ratTrunc_intCast], e2,
           by rw [e3, ratTrunc_intCast], e3⟩
  · rcases readJunction_val_cases h d u with hc | hc | hc | hc
    · exact Or.inl hc
    · exact Or.inr (Or.inl hc)
    · exact Or.inr (Or.inr (Or.inl hc))
    · right; right; right
      rw [hc]
      obtain ⟨hb1, hb2⟩ := decodeJunction_bound d.cjh d.cjl u
      obtain ⟨hr1, hr2⟩ := ratTrunc_bound _ (by linarith) (by linarith)
      exact ⟨by omega, by omega, by omega⟩
  · rcases readThermocouple_val_cases h d u with hc | hc | hc | hc
    · exact Or.inl hc
    · exact Or.inr (Or.inl hc)
    · exact Or.inr (Or.inr (Or.inl hc))
    · right; right; right
      rw [hc]
      obtain ⟨hb1, hb2⟩ := decodeThermo_bound d.tc2 d.tc1 d.tc0 u
      obtain ⟨hr1, hr2⟩ := ratTrunc_bound _ hb1 hb2
      exact ⟨by omega, by omega, by omega⟩

/-- The configuration sequence of the examples' `setup()`: construct the
handle from pin numbers alone, then establish the configuration solely
through three `writeRegister` calls (CR0, CR1, MASK), as in
`Dual_MAX31856.ino` lines 68–81. -/
def setupWrites (sdi sdo cs sck a b c : Nat) (d : Device) : MAX31856 × Device :=
  let p1 := writeRegister (construct sdi sdo cs sck) d REGISTER_CR0 a
  let p2 := writeRegister p1.1 p1.2 REGISTER_CR1 b
  writeRegister p2.1 p2.2 REGISTER_MASK c

/-- After the setup sequence the handle stores exactly the three written
bytes as the desired configuration. -/
theorem setupWrites_fst (sdi sdo cs sck a b c : Nat) (d : Device) :
    (setupWrites sdi sdo cs sck a b c d).1 =
      MAX31856.mk sdi sdo cs sck (a % 256) (b % 256) (c % 256) := by
  unfold setupWrites writeRegister construct REGISTER_CR0 REGISTER_CR1 REGISTER_MASK
  cases hd : d.present <;> simp [hd]

/-- After the setup sequence a present device holds exactly the three
written bytes in its control registers. -/
theorem setupWrites_snd (sdi sdo cs sck a b c : Nat) (d : Device)
    (hd : d.present = true) :
    (setupWrites sdi sdo cs sck a b c d).2 =
      { d with cr0 := a % 256, cr1 := b % 256, mask := c % 256 } := by
  unfold setupWrites writeRegister construct REGISTER_CR0 REGISTER_CR1 REGISTER_MASK
  simp [hd]

/-- The device returned by readJunction on a present device: unchanged when
the readback matches the stored configuration, rewritten otherwise. -/
theorem readJunction_snd (h : MAX31856) (d : Device) (u : TempUnit)
    (hp : d.present = true)
    (hFF : ¬(d.cr0 % 256 = 255 ∧ d.cr1 % 256 = 255 ∧ d.mask % 256 = 255)) :
    (readJunction h d u).2 =
      (if d.cr0 % 256 = h.cr0 % 256 ∧ d.cr1 % 256 = h.cr1 % 256 ∧
          d.mask % 256 = h.mask % 256 then d
       else { d with cr0 := h.cr0 % 256, cr1 := h.cr1 % 256,
                     mask := h.mask % 256 }) := by
  rw [readJunction_present h d u hp hFF]

/-- The device returned by readThermocouple on a present device: unchanged
when the readback matches the stored configuration, rewritten otherwise. -/
theorem readThermocouple_snd (h : MAX31856) (d : Device) (u : TempUnit)
    (hp : d.present = true)
    (hFF : ¬(d.cr0 % 256 = 255 ∧ d.cr1 % 256 = 255 ∧ d.mask % 256 = 255)) :
    (readThermocouple h d u).2 =
      (if d.cr0 % 256 = h.cr0 % 256 ∧ d.cr1 % 256 = h.cr1 % 256 ∧
          d.mask % 256 = h.mask % 256 then d
       else { d with cr0 := h.cr0 % 256, cr1 := h.cr1 % 256,
                     mask := h.mask % 256 }) := by
  rw [readThermocouple_present h d u hp hFF]

/-- C9: writeRegister calls addressed at the three configuration registers
(CR0, CR1, MASK) update the handle's stored desired configuration — the
examples establish configuration solely through writeRegister after
constructing the handle from pin numbers alone — so the power-loss recovery
inside a later readJunction or readThermocouple on a power-cycled device
(control registers reset to the all-zero pattern) reasserts exactly the
values of the most recent writeRegister calls. -/
theorem writeRegister_tracks_config (sdi sdo cs sck a b c : Nat)
    (d dr : Device) (u : TempUnit)
    (hp : dr.present = true) (h0 : dr.cr0 = 0) (h1 : dr.cr1 = 0)
    (hm : dr.mask = 0) :
    ((setupWrites sdi sdo cs sck a b c d).1.cr0 = a % 256 ∧
     (setupWrites sdi sdo cs sck a b c d).1.cr1 = b % 256 ∧
     (setupWrites sdi sdo cs sck a b c d).1.mask = c % 256) ∧
    (d.present = true →
      (setupWrites sdi sdo cs sck a b c d).2.cr0 = a % 256 ∧
      (setupWrites sdi sdo cs sck a b c d).2.cr1 = b % 256 ∧
      (setupWrites sdi sdo cs sck a b c d).2.mask = c % 256) ∧
    ((readJunction (setupWrites sdi sdo cs sck a b c d).1 dr u).2.cr0 = a % 256 ∧
     (readJunction (setupWrites sdi sdo cs sck a b c d).1 dr u).2.cr1 = b % 256 ∧
     (readJunction (setupWrites sdi sdo cs sck a b c d).1 dr u).2.mask = c % 256) ∧
    ((readThermocouple (setupWrites sdi sdo cs sck a b c d).1 dr u).2.cr0 = a % 256 ∧
     (readThermocouple (setupWrites sdi sdo cs sck a b c d).1 dr u).2.cr1 = b % 256 ∧
     (readThermocouple (setupWrites sdi sdo cs sck a b c d).1 dr u).2.mask = c % 256) := by
  have hFF : ¬(dr.cr0 % 256 = 255 ∧ dr.cr1 % 256 = 255 ∧ dr.mask % 256 = 255) := by
    rw [h0]
    intro hAnd
    exact absurd hAnd.1 (by norm_num)
  rw [setupWrites_fst]
  refine ⟨⟨rfl, rfl, rfl⟩, ?_, ?_, ?_⟩
  · intro hd
    rw [setupWrites_snd sdi sdo cs sck a b c d hd]
    exact ⟨rfl, rfl, rfl⟩
  · rw [readJunction_snd _ dr u hp hFF,
      show (MAX31856.mk sdi sdo cs sck (a % 256) (b % 256) (c % 256)).cr0 =
        a % 256 from rfl,
      show (MAX31856.mk sdi sdo cs sck (a % 256) (b % 256) (c % 256)).cr1 =
        b % 256 from rfl,
      show (MAX31856.mk sdi sdo cs sck (a % 256) (b % 256) (c % 256)).mask =
        c % 256 from rfl]
    split
    · next hC => exact ⟨by omega, by omega, by omega⟩
    · exact ⟨show a % 256 % 256 = a % 256 by omega,
             show b % 256 % 256 = b % 256 by omega,
             show c % 256 % 256 = c % 256 by omega⟩
  · rw [readThermocouple_snd _ dr u hp hFF,
      show (MAX31856.mk sdi sdo cs sck (a % 256) (b % 256) (c % 256)).cr0 =
        a % 256 from rfl,
      show (MAX31856.mk sdi sdo cs sck (a % 256) (b % 256) (c % 256)).cr1 =
        b % 256 from rfl,
      show (MAX31856.mk sdi sdo cs sck (a % 256) (b % 256) (c % 256)).mask =
        c % 256 from rfl]
    split
    · next hC => exact ⟨by omega, by omega, by omega⟩
    · exact ⟨show a % 256 % 256 = a % 256 by omega,
             show b % 256 % 256 = b % 256 by omega,
             show c % 256 % 256 = c % 256 by omega⟩

/-- Witness for C9: writing 0x80, 0x13, 0xFC during setup leaves those bytes
both in the handle and, after a measurement call on a reset device, in the
device's control registers. -/
theorem writeRegister_tracks_config_witness :
    (setupWrites 5 6 4 3 128 19 252 (Device.mk true 0 0 0 25 0 0 39 16 0)).1.cr0 =
      128 % 256 ∧
    (readJunction (setupWrites 5 6 4 3 128 19 252
        (Device.mk true 0 0 0 25 0 0 39 16 0)).1
      (Device.mk true 0 0 0 25 0 0 39 16 0) TempUnit.celsius).2.mask = 252 % 256 :=
  ⟨(writeRegister_tracks_config 5 6 4 3 128 19 252
      (Device.mk true 0 0 0 25 0 0 39 16 0) (Device.mk true 0 0 0 25 0 0 39 16 0)
      TempUnit.celsius rfl rfl rfl rfl).1.1,
   (writeRegister_tracks_config 5 6 4 3 128 19 252
      (Device.mk true 0 0 0 25 0 0 39 16 0) (Device.mk true 0 0 0 25 0 0 39 16 0)
      TempUnit.celsius rfl rfl rfl rfl).2.2.1.2.2⟩
